import Mathlib

/-!
Shallow embedding of the vizstack logging client
(src/clients/python/vzlogger/logger.py) and proofs about its behaviour.

External collaborators (socket transport, view assembly, caller-location
resolution, wall clock) are modelled as opaque inputs or uninterpreted
constructors; everything else follows the source line by line, including
the Python distinction between tuples and lists, because the source stores
default tags as a varargs tuple yet concatenates them with a list using +.
-/

namespace VZLogger

/-- A Python sequence of strings, keeping track of whether it is a tuple or
a list: the + operator only concatenates sequences of the same kind. -/
inductive PySeq where
  | tuple (xs : List String)
  | list (xs : List String)
  deriving DecidableEq

/-- The underlying strings of a sequence, in order. -/
def PySeq.toList : PySeq → List String
  | .tuple xs => xs
  | .list xs => xs

/-- Python exceptions that the embedded code can raise. -/
inductive PyError where
  | typeError (m : String)
  | keyError (k : Int)
  deriving DecidableEq

/-- Python + on two string sequences: concatenation when the kinds agree,
a TypeError when a tuple meets a list. -/
def pySeqAdd : PySeq → PySeq → Except PyError PySeq
  | .tuple xs, .tuple ys => .ok (.tuple (xs ++ ys))
  | .list xs, .list ys => .ok (.list (xs ++ ys))
  | .tuple _, .list _ => .error (.typeError "can only concatenate tuple, not list, to tuple")
  | .list _, .tuple _ => .error (.typeError "can only concatenate list, not tuple, to list")

/-- Opaque program values handed to a log call. -/
inductive PyObj where
  | str (s : String)
  | int (n : Int)
  deriving DecidableEq

/-- Input to the external assembly function: a single object, or a Flow
wrapping the objects in call order. -/
inductive AsmInput where
  | single (o : PyObj)
  | flow (os : List PyObj)
  deriving DecidableEq

/-- View trees, an opaque output of the external assembly function. -/
inductive View where
  | assembledSingle (o : PyObj)
  | assembledFlow (os : List PyObj)
  deriving DecidableEq

/-- The external assemble function, modelled as an injective black box. -/
def assemble : AsmInput → View
  | .single o => .assembledSingle o
  | .flow os => .assembledFlow os

/-- JSON-compatible values appearing in a record payload. -/
inductive JVal where
  | jint (n : Int)
  | jstr (s : String)
  | jarr (xs : List String)
  | jview (v : View)
  deriving DecidableEq

/-- Log levels, as in the source. -/
def DEBUG : Int := 1

def INFO : Int := 2

def WARN : Int := 3

def ERROR : Int := 4

/-- The level-to-name dictionary; a lookup outside the four levels is a
KeyError, modelled as none. -/
def _level_to_name (l : Int) : Option String :=
  if l = 1 then some "debug"
  else if l = 2 then some "info"
  else if l = 3 then some "warn"
  else if l = 4 then some "error"
  else none

/-- The record dictionary literal built in Logger._log, with its keys in
source order. -/
def mkRecord (timestamp : Int) (filepath : String) (lineno colno : Int)
    (funcname loggerName levelName : String) (tags : List String)
    (view : View) : List (String × JVal) :=
  [("timestamp", .jint timestamp),
   ("filePath", .jstr filepath),
   ("lineNumber", .jint lineno),
   ("columnNumber", .jint colno),
   ("functionName", .jstr funcname),
   ("loggerName", .jstr loggerName),
   ("level", .jstr levelName),
   ("tags", .jarr tags),
   ("view", .jview view)]

/-- One emission on the socket client: event name, namespace, and an
optional record payload. -/
structure Emit where
  event : String
  ns : String
  payload : Option (List (String × JVal))
  deriving DecidableEq

/-- The ProgramRequestDisconnect emission performed by disconnect. -/
def reqDisconnectEmit : Emit :=
  { event := "ProgramRequestDisconnect", ns := "/program", payload := none }

/-- The process-wide module state: the global client reference, plus a
counter supplying fresh identities for newly created socket clients. -/
structure SessionState where
  _client : Option Nat
  nextId : Nat
  deriving DecidableEq

/-- disconnect(): when a client is active, emit ProgramRequestDisconnect
on /program and clear the global reference; otherwise do nothing. -/
def disconnect (st : SessionState) : SessionState × List Emit :=
  match st._client with
  | some _ => ({ st with _client := none }, [reqDisconnectEmit])
  | none => (st, [])

/-- Observable steps taken by Connection.__init__. -/
inductive Action where
  | emitted (e : Emit)
  | openedChannel (id : Nat) (url : String) (ns : String)
  | registeredHandler (id : Nat) (event : String) (ns : String)
  deriving DecidableEq

/-- connect(url) / Connection.__init__: first calls disconnect(), then
creates a fresh client, connects it on /program, and registers the
ServerApproveDisconnect handler. -/
def connect (st : SessionState) (url : String) : SessionState × List Action :=
  let torn := disconnect st
  let id := torn.1.nextId
  ({ _client := some id, nextId := id + 1 },
   torn.2.map .emitted ++
     [.openedChannel id url "/program",
      .registeredHandler id "ServerApproveDisconnect" "/program"])

/-- Caller location data produced by the external frame inspection. -/
structure FrameInfo where
  filename : String
  lineno : Int
  function : String
  deriving DecidableEq

/-- filepath resolved from the frame; the empty string when it is absent. -/
def framePath : Option FrameInfo → String
  | some f => f.filename
  | none => ""

/-- lineno resolved from the frame; -1 when it is absent. -/
def frameLine : Option FrameInfo → Int
  | some f => f.lineno
  | none => -1

/-- funcname resolved from the frame; the empty string when it is absent. -/
def frameFunc : Option FrameInfo → String
  | some f => f.function
  | none => ""

/-- The observable outcome of one _log call: stdout and stderr writes of
the raw objects, socket emissions, and the exception, if one escaped. -/
structure LogOutput where
  stdoutWrites : List (List PyObj)
  stderrWrites : List (List PyObj)
  emits : List Emit
  error : Option PyError
  deriving DecidableEq

/-- Argument of assemble in _log: the lone object when exactly one was
passed, otherwise a Flow of all of them (including zero). -/
def viewArg : List PyObj → AsmInput
  | [o] => .single o
  | os => .flow os

/-- A named logger with its mutable configuration, as in Logger.__init__. -/
structure Logger where
  _name : String
  _level : Int
  _enabled : Bool
  _tags : PySeq
  _stdout : Bool
  _stderr : Bool
  deriving DecidableEq

/-- Logger(name): defaults INFO, enabled, empty list of tags, no echo. -/
def Logger.init (name : String) : Logger :=
  { _name := name, _level := INFO, _enabled := true, _tags := .list [],
    _stdout := false, _stderr := false }

/-- level(l): stores the value with no validation. -/
def Logger.level (lg : Logger) (l : Int) : Logger :=
  { lg with _level := l }

/-- enabled(b). -/
def Logger.enabled (lg : Logger) (b : Bool) : Logger :=
  { lg with _enabled := b }

/-- tags(*t): the varargs are received as a tuple and stored as such. -/
def Logger.tags (lg : Logger) (ts : List String) : Logger :=
  { lg with _tags := .tuple ts }

/-- stdout(b). -/
def Logger.stdout (lg : Logger) (b : Bool) : Logger :=
  { lg with _stdout := b }

/-- stderr(b). -/
def Logger.stderr (lg : Logger) (b : Bool) : Logger :=
  { lg with _stderr := b }

/-- Logger._log, following the source: filter on enabled and level, resolve
the caller frame (colno is always -1), echo the raw objects, build the
record dictionary in key order (the level-name lookup and the tag
concatenation can raise, in that order), and emit ProgramToServer when the
global client is set. The msg parameter is accepted and unused. -/
def Logger._log (lg : Logger) (client : Option Nat) (level : Int)
    (objects : List PyObj) (msg : String) (tags : PySeq)
    (frame : Option FrameInfo) (now : Int) : LogOutput :=
  if lg._enabled = false then ⟨[], [], [], none⟩
  else if level < lg._level then ⟨[], [], [], none⟩
  else
    let so : List (List PyObj) := if lg._stdout then [objects] else []
    let se : List (List PyObj) := if lg._stderr then [objects] else []
    match _level_to_name level with
    | none => ⟨so, se, [], some (.keyError level)⟩
    | some lname =>
      match pySeqAdd lg._tags tags with
      | .error e => ⟨so, se, [], some e⟩
      | .ok allTags =>
        let record := mkRecord now (framePath frame) (frameLine frame) (-1)
          (frameFunc frame) lg._name lname allTags.toList
          (assemble (viewArg objects))
        match client with
        | some _ =>
            ⟨so, se, [{ event := "ProgramToServer", ns := "/program",
                        payload := some record }], none⟩
        | none => ⟨so, se, [], none⟩

/-- debug(*objects, msg, tags). -/
def Logger.debug (lg : Logger) (client : Option Nat) (objects : List PyObj)
    (msg : String) (tags : PySeq) (frame : Option FrameInfo) (now : Int) :
    LogOutput :=
  Logger._log lg client DEBUG objects msg tags frame now

/-- info(*objects, msg, tags). -/
def Logger.info (lg : Logger) (client : Option Nat) (objects : List PyObj)
    (msg : String) (tags : PySeq) (frame : Option FrameInfo) (now : Int) :
    LogOutput :=
  Logger._log lg client INFO objects msg tags frame now

/-- warn(*objects, msg, tags). -/
def Logger.warn (lg : Logger) (client : Option Nat) (objects : List PyObj)
    (msg : String) (tags : PySeq) (frame : Option FrameInfo) (now : Int) :
    LogOutput :=
  Logger._log lg client WARN objects msg tags frame now

/-- error(*objects, msg, tags). -/
def Logger.error (lg : Logger) (client : Option Nat) (objects : List PyObj)
    (msg : String) (tags : PySeq) (frame : Option FrameInfo) (now : Int) :
    LogOutput :=
  Logger._log lg client ERROR objects msg tags frame now

/-- A value usable as a logger name; str coerces it to a string. -/
inductive PyName where
  | str (s : String)
  | int (n : Int)
  deriving DecidableEq

/-- The str coercion performed at the top of get_logger. -/
def PyName.toStr : PyName → String
  | .str s => s
  | .int n => toString n

/-- The module-level map from names to Logger objects, with an allocation
counter so that object identity is observable. -/
structure Registry where
  entries : List (String × (Nat × Logger))
  nextId : Nat
  deriving DecidableEq

/-- get_logger(name): coerce the name with str, create a fresh Logger with
defaults when absent, and return the stored one. The returned pair is the
identity and state of the Logger object. -/
def get_logger (name : PyName) (reg : Registry) : (Nat × Logger) × Registry :=
  let s := name.toStr
  match reg.entries.lookup s with
  | some e => (e, reg)
  | none =>
      let lg := Logger.init s
      ((reg.nextId, lg),
       { entries := (s, (reg.nextId, lg)) :: reg.entries,
         nextId := reg.nextId + 1 })

/-- The concrete emission produced by the scenario
getLogger a, info on the string hello with an active client. -/
def sampleEmit : Emit :=
  { event := "ProgramToServer", ns := "/program",
    payload := some (mkRecord 0 "" (-1) (-1) "" "a" "info" []
      (assemble (viewArg [.str "hello"]))) }

/-! Helper lemmas shared by the claim theorems. -/

/-- With no active client, _log never emits anything on the socket. -/
theorem _log_none_emits (lg : Logger) (level : Int) (objects : List PyObj)
    (msg : String) (tags : PySeq) (frame : Option FrameInfo) (now : Int) :
    (Logger._log lg none level objects msg tags frame now).emits = [] := by
  unfold Logger._log
  split
  · rfl
  split
  · rfl
  dsimp only
  split
  · rfl
  split
  · rfl
  · rfl

/-- Every emission produced by _log is a ProgramToServer record on
/program, built by mkRecord from the call data. -/
theorem _log_emits_cases (lg : Logger) (client : Option Nat) (level : Int)
    (objects : List PyObj) (msg : String) (tags : PySeq)
    (frame : Option FrameInfo) (now : Int) :
    (Logger._log lg client level objects msg tags frame now).emits = [] ∨
    ∃ lname allTags,
      _level_to_name level = some lname ∧
      (Logger._log lg client level objects msg tags frame now).emits =
        [{ event := "ProgramToServer", ns := "/program",
           payload := some (mkRecord now (framePath frame) (frameLine frame)
             (-1) (frameFunc frame) lg._name lname allTags
             (assemble (viewArg objects))) }] := by
  unfold Logger._log
  split
  · exact Or.inl rfl
  split
  · exact Or.inl rfl
  dsimp only
  split
  · exact Or.inl rfl
  rename_i lname hname
  split
  · exact Or.inl rfl
  rename_i allTags htags
  split
  · exact Or.inr ⟨lname, allTags.toList, hname, rfl⟩
  · exact Or.inl rfl

/-! The claim theorems. -/

/-- C1: evaluation at the failing input. With default tags configured via
tags (hence stored as a tuple) and the call-site tags left as the default
empty list, the log call raises TypeError from the tag concatenation and
emits no record at all, so no record carrying the concatenated tags is
produced, contrary to the claim. -/
theorem default_tags_concat_raises :
    Logger._log ((Logger.init "a").tags ["x"]) (some 0) INFO
        [.str "obj"] "" (.list []) none 0 =
      { stdoutWrites := [], stderrWrites := [], emits := [],
        error := some
          (.typeError "can only concatenate tuple, not list, to tuple") } :=
  rfl

/-- C2: an exception does escape _log. At a concrete call with default
tags configured via tags and call-site tags given as a list, the TypeError
raised by the tag concatenation propagates to the caller. -/
theorem log_error_propagates :
    (Logger._log ((Logger.init "m").tags []) (some 3) WARN [.int 1] ""
        (.list ["c"]) none 7).error =
      some (.typeError "can only concatenate tuple, not list, to tuple") ∧
    (Logger._log ((Logger.init "m").tags []) (some 3) WARN [.int 1] ""
        (.list ["c"]) none 7).error ≠ none :=
  ⟨rfl, by decide⟩

/-- C3 counterexample: configuration never fails. level with the invalid
value 0 returns normally, storing 0, and getLogger with the empty name
returns normally, creating a default Logger named the empty string. -/
theorem config_errors_not_raised :
    ((Logger.init "n").level 0)._level = 0 ∧
    (Logger.init "n").level 0 = { Logger.init "n" with _level := 0 } ∧
    (get_logger (.str "") ⟨[], 0⟩).1.2 = Logger.init "" :=
  ⟨rfl, rfl, rfl⟩

/-- C3 amended: configuration performs no validation. level stores any
value whatsoever and returns the updated logger, and getLogger with the
empty name creates and returns a default Logger named the empty string;
neither operation can fail. -/
theorem config_accepts_invalid (lg : Logger) (l : Int) (reg : Registry)
    (h : reg.entries.lookup "" = none) :
    Logger.level lg l = { lg with _level := l } ∧
    (get_logger (.str "") reg).1.2 = Logger.init "" := by
  refine ⟨rfl, ?_⟩
  simp [get_logger, PyName.toStr, h]

/-- Witness for C3 amended at a concrete logger and empty registry. -/
theorem config_accepts_invalid_witness :
    Logger.level (Logger.init "z") 0 =
      { Logger.init "z" with _level := 0 } ∧
    (get_logger (.str "") ⟨[], 0⟩).1.2 = Logger.init "" :=
  config_accepts_invalid (Logger.init "z") 0 ⟨[], 0⟩ rfl

/-- C4: a call that is filtered out, because the logger is disabled or the
level is strictly below the configured minimum, returns with no stdout or
stderr write, no emission, and no error. -/
theorem filtered_log_no_side_effects (lg : Logger) (client : Option Nat)
    (level : Int) (objects : List PyObj) (msg : String) (tags : PySeq)
    (frame : Option FrameInfo) (now : Int)
    (h : lg._enabled = false ∨ level < lg._level) :
    Logger._log lg client level objects msg tags frame now =
      ⟨[], [], [], none⟩ := by
  unfold Logger._log
  rcases h with h | h
  · simp [h]
  · rcases he : lg._enabled with _ | _
    · simp
    · simp [he, h]

/-- Witness for C4: a logger at WARN drops an INFO call entirely. -/
theorem filtered_log_no_side_effects_witness :
    Logger._log ((Logger.init "b").level WARN) (some 0) INFO [.str "skip"]
        "" (.list []) none 0 = ⟨[], [], [], none⟩ :=
  filtered_log_no_side_effects ((Logger.init "b").level WARN) (some 0) INFO
    [.str "skip"] "" (.list []) none 0 (Or.inr (by decide))

/-- C5: disconnect clears the process-wide client reference, and a log
call with no active client emits nothing on the socket, whatever the
logger and arguments. -/
theorem disconnect_blocks_send (st : SessionState) (lg : Logger)
    (level : Int) (objects : List PyObj) (msg : String) (tags : PySeq)
    (frame : Option FrameInfo) (now : Int) :
    ((disconnect st).1)._client = none ∧
    (Logger._log lg ((disconnect st).1)._client level objects msg tags
      frame now).emits = [] := by
  have hc : ((disconnect st).1)._client = none := by
    unfold disconnect
    cases h : st._client <;> simp [h]
  exact ⟨hc, by rw [hc]; exact _log_none_emits lg level objects msg tags frame now⟩

/-- C6: disconnect with no active session is a no-op, of two consecutive
disconnect calls only the first emits anything, and on an active session
that emission is exactly one ProgramRequestDisconnect. -/
theorem disconnect_idempotent (st : SessionState) :
    (st._client = none → disconnect st = (st, [])) ∧
    disconnect (disconnect st).1 = ((disconnect st).1, []) ∧
    (st._client ≠ none → (disconnect st).2 = [reqDisconnectEmit]) := by
  refine ⟨?_, ?_, ?_⟩ <;> cases h : st._client <;> simp [disconnect, h]

/-- Witness for C6 at a disconnected and at a connected state. -/
theorem disconnect_idempotent_witness :
    disconnect ⟨none, 0⟩ = (⟨none, 0⟩, []) ∧
    (disconnect ⟨some 5, 6⟩).2 = [reqDisconnectEmit] :=
  ⟨(disconnect_idempotent ⟨none, 0⟩).1 rfl,
   (disconnect_idempotent ⟨some 5, 6⟩).2.2 (by decide)⟩

/-- C7: getLogger is idempotent: a second call with the same name returns
the very same logger object, identity included, and leaves the registry
unchanged; integer names are coerced to their string form; a logger
created on first lookup carries the defaults INFO, enabled, empty tags,
and no stdout or stderr echo. -/
theorem get_logger_idempotent_defaults (name : PyName) (reg : Registry) :
    get_logger name (get_logger name reg).2 =
      ((get_logger name reg).1, (get_logger name reg).2) ∧
    (reg.entries.lookup name.toStr = none →
      (get_logger name reg).1.2 = Logger.init name.toStr) ∧
    (∀ n : Int, get_logger (.int n) reg = get_logger (.str (toString n)) reg) ∧
    (Logger.init name.toStr)._level = INFO ∧
    (Logger.init name.toStr)._enabled = true ∧
    (Logger.init name.toStr)._tags = .list [] ∧
    (Logger.init name.toStr)._stdout = false ∧
    (Logger.init name.toStr)._stderr = false := by
  refine ⟨?_, ?_, fun n => rfl, rfl, rfl, rfl, rfl, rfl⟩
  · cases h : reg.entries.lookup name.toStr <;>
      simp [get_logger, h]
  · intro h
    simp [get_logger, h]

/-- Witness for C7 on the empty registry. -/
theorem get_logger_idempotent_defaults_witness :
    get_logger (.str "a") (get_logger (.str "a") ⟨[], 0⟩).2 =
      ((get_logger (.str "a") ⟨[], 0⟩).1, (get_logger (.str "a") ⟨[], 0⟩).2) ∧
    (get_logger (.str "a") ⟨[], 0⟩).1.2 = Logger.init "a" :=
  ⟨(get_logger_idempotent_defaults (.str "a") ⟨[], 0⟩).1,
   (get_logger_idempotent_defaults (.str "a") ⟨[], 0⟩).2.1 rfl⟩

/-- C8: every emission a log call at one of the four public levels can
produce is a ProgramToServer signal on /program whose payload is a record
with exactly the nine keys in order, an integer timestamp, a column number
of -1, the logger name, a level name among debug, info, warn and error,
a string array of tags, and the assembled view. -/
theorem program_to_server_payload_shape (lg : Logger) (client : Option Nat)
    (level : Int) (objects : List PyObj) (msg : String) (tags : PySeq)
    (frame : Option FrameInfo) (now : Int) (e : Emit)
    (hlevel : level = DEBUG ∨ level = INFO ∨ level = WARN ∨ level = ERROR)
    (he : e ∈ (Logger._log lg client level objects msg tags frame now).emits) :
    e.event = "ProgramToServer" ∧ e.ns = "/program" ∧
    ∃ ts fp ln fn lname tg,
      e.payload = some (mkRecord ts fp ln (-1) fn lg._name lname tg
        (assemble (viewArg objects))) ∧
      (lname = "debug" ∨ lname = "info" ∨ lname = "warn" ∨ lname = "error") ∧
      (mkRecord ts fp ln (-1) fn lg._name lname tg
          (assemble (viewArg objects))).map Prod.fst =
        ["timestamp", "filePath", "lineNumber", "columnNumber",
         "functionName", "loggerName", "level", "tags", "view"] := by
  rcases _log_emits_cases lg client level objects msg tags frame now with
    hnil | ⟨lname, allTags, hname, hemits⟩
  · rw [hnil] at he
    cases he
  · rw [hemits] at he
    rcases he with he | he
    case tail h => cases h
    refine ⟨rfl, rfl, now, framePath frame, frameLine frame, frameFunc frame,
      lname, allTags, rfl, ?_, rfl⟩
    rcases hlevel with h | h | h | h <;> subst h <;>
      simp [_level_to_name, DEBUG, INFO, WARN, ERROR] at hname <;>
      simp [hname]

/-- Witness for C8: the scenario getLogger a, info on hello with an
active client, applied to the single emission it produces. -/
theorem program_to_server_payload_shape_witness :
    sampleEmit.event = "ProgramToServer" ∧ sampleEmit.ns = "/program" ∧
    ∃ ts fp ln fn lname tg,
      sampleEmit.payload = some (mkRecord ts fp ln (-1) fn
        (Logger.init "a")._name lname tg
        (assemble (viewArg [.str "hello"]))) ∧
      (lname = "debug" ∨ lname = "info" ∨ lname = "warn" ∨ lname = "error") ∧
      (mkRecord ts fp ln (-1) fn (Logger.init "a")._name lname tg
          (assemble (viewArg [.str "hello"]))).map Prod.fst =
        ["timestamp", "filePath", "lineNumber", "columnNumber",
         "functionName", "loggerName", "level", "tags", "view"] :=
  program_to_server_payload_shape (Logger.init "a") (some 0) INFO
    [.str "hello"] "" (.list []) none 0 sampleEmit
    (Or.inr (Or.inl rfl)) (by decide)

/-- C9: connect first performs the disconnect action: on a state with an
active client, the trace starts with the ProgramRequestDisconnect
emission, and only then opens the fresh channel on /program and registers
the ServerApproveDisconnect handler; the resulting state holds exactly the
one fresh client, and the torn-down intermediate state holds none. -/
theorem connect_tears_down_first (st : SessionState) (url : String)
    (h : st._client ≠ none) :
    (connect st url).2 =
      [.emitted reqDisconnectEmit,
       .openedChannel st.nextId url "/program",
       .registeredHandler st.nextId "ServerApproveDisconnect" "/program"] ∧
    (connect st url).1._client = some st.nextId ∧
    ((disconnect st).1)._client = none := by
  cases hc : st._client with
  | none => exact absurd hc h
  | some c => exact ⟨by simp [connect, disconnect, hc], by simp [connect, disconnect, hc], by simp [disconnect, hc]⟩

/-- Witness for C9 at a connected state. -/
theorem connect_tears_down_first_witness :
    (connect ⟨some 2, 9⟩ "u").2 =
      [.emitted reqDisconnectEmit,
       .openedChannel 9 "u" "/program",
       .registeredHandler 9 "ServerApproveDisconnect" "/program"] ∧
    (connect ⟨some 2, 9⟩ "u").1._client = some 9 ∧
    ((disconnect ⟨some 2, 9⟩).1)._client = none :=
  connect_tears_down_first ⟨some 2, 9⟩ "u" (by decide)

/-- C10: a call with zero objects that passes the filter takes the
multi-object branch, so its view argument is the empty Flow; with an
active client and a successful tag concatenation it still builds and sends
one ProgramToServer record whose view is the assembled empty Flow, with no
error. -/
theorem zero_objects_flow (lg : Logger) (c : Nat) (level : Int)
    (msg : String) (tags : PySeq) (frame : Option FrameInfo) (now : Int)
    (lname : String) (allTags : PySeq)
    (hen : lg._enabled = true) (hlev : lg._level ≤ level)
    (hname : _level_to_name level = some lname)
    (htags : pySeqAdd lg._tags tags = .ok allTags) :
    viewArg [] = .flow [] ∧
    (Logger._log lg (some c) level [] msg tags frame now).emits =
      [{ event := "ProgramToServer", ns := "/program",
         payload := some (mkRecord now (framePath frame) (frameLine frame)
           (-1) (frameFunc frame) lg._name lname allTags.toList
           (assemble (.flow []))) }] ∧
    (Logger._log lg (some c) level [] msg tags frame now).error = none := by
  refine ⟨rfl, ?_, ?_⟩ <;>
    unfold Logger._log <;>
    simp [hen, not_lt.mpr hlev, hname, htags, viewArg]

/-- Witness for C10: a DEBUG logger logging zero objects with one
call-site tag. -/
theorem zero_objects_flow_witness :
    viewArg [] = .flow [] ∧
    (Logger._log ((Logger.init "c").level DEBUG) (some 0) DEBUG [] ""
        (.list ["t"]) none 5).emits =
      [{ event := "ProgramToServer", ns := "/program",
         payload := some (mkRecord 5 (framePath none) (frameLine none)
           (-1) (frameFunc none) ((Logger.init "c").level DEBUG)._name
           "debug" (PySeq.list ["t"]).toList (assemble (.flow []))) }] ∧
    (Logger._log ((Logger.init "c").level DEBUG) (some 0) DEBUG [] ""
        (.list ["t"]) none 5).error = none :=
  zero_objects_flow ((Logger.init "c").level DEBUG) 0 DEBUG "" (.list ["t"])
    none 5 "debug" (.list ["t"]) rfl (by decide) rfl rfl

end VZLogger
